import Mathlib

/-!
Verification of the parallel-ai-thought engine (src/index.ts): data model
(tasks, responses, sessions), the task executor, the parallel thought
manager (executeParallelThoughts, summarizeResponses, findConsensus), the
in-memory session store, and the parallel-ai-think tool handler.

Provider HTTP calls are abstracted by an environment oracle: `Env.call`
gives the outcome (normalized content and usage, or a failure message)
and the elapsed wall-clock time of each outbound call, mirroring the
`callAI` boundary of the source.
-/

/-- The five supported AI providers (the `AIProvider` union type). -/
inductive AIProvider
  | openai
  | anthropic
  | gemini
  | deepseek
  | ollama
deriving DecidableEq

/-- String form of a provider, as used in template literals such as the
task identifier. -/
def providerName : AIProvider → String
  | .openai => "openai"
  | .anthropic => "anthropic"
  | .gemini => "gemini"
  | .deepseek => "deepseek"
  | .ollama => "ollama"

/-- `AIThoughtTask` interface: one unit of work. -/
structure AIThoughtTask where
  id : String
  prompt : String
  provider : AIProvider
  model : Option String
  temperature : Option Rat
  maxTokens : Option Nat
  metadata : Option (List (String × String))
deriving DecidableEq

/-- Token-usage counters of `AIThoughtResponse.usage`. -/
structure Usage where
  promptTokens : Option Nat
  completionTokens : Option Nat
  totalTokens : Option Nat
deriving DecidableEq

/-- `AIThoughtResponse` interface: the outcome of one task. -/
structure AIThoughtResponse where
  taskId : String
  provider : AIProvider
  model : String
  response : String
  usage : Option Usage
  timestamp : Nat
  duration : Nat
deriving DecidableEq

/-- `ParallelThoughtResult` interface: the aggregate stored per session. -/
structure ParallelThoughtResult where
  sessionId : String
  tasks : List AIThoughtTask
  responses : List AIThoughtResponse
  summary : Option String
  consensus : Option String
  totalDuration : Nat
  timestamp : Nat
deriving DecidableEq

/-- `AIProviderConfig` interface: per-provider configuration. -/
structure AIProviderConfig where
  apiKey : String
  baseURL : Option String
  defaultModel : Option String
deriving DecidableEq

/-- Normalized successful result of `callAI` (content plus optional usage). -/
structure CallSuccess where
  content : String
  usage : Option Usage
deriving DecidableEq

/-- Outcome of one provider invocation, with its elapsed wall-clock time:
either a normalized success or a thrown failure carrying the error message
(network fault, non-success HTTP status, malformed body). -/
inductive CallOutcome
  | ok (res : CallSuccess) (elapsed : Nat)
  | fail (msg : String) (elapsed : Nat)
deriving DecidableEq

/-- The environment of a run: the configuration map built by
`initializeProviders`, and the oracle giving each outbound `callAI`
invocation its outcome and elapsed time. -/
structure Env where
  configs : AIProvider → Option AIProviderConfig
  call : AIThoughtTask → AIProviderConfig → CallOutcome

/-- JavaScript `a || b` on an optional string: the empty string is falsy. -/
def jsStrOr (a : Option String) (b : String) : String :=
  match a with
  | some s => if s = "" then b else s
  | none => b

/-- Model resolution `task.model || config.defaultModel || 'unknown'`. -/
def resolveModel (taskModel defaultModel : Option String) : String :=
  jsStrOr taskModel (jsStrOr defaultModel "unknown")

/-- `AIInterface.executeTask`: looks up the provider's configuration
(throwing when absent), invokes the provider, and converts any thrown
failure into a degraded response carrying the error text. -/
def executeTask (env : Env) (startTime : Nat) (task : AIThoughtTask) :
    Except String AIThoughtResponse :=
  match env.configs task.provider with
  | none => .error ("Provider " ++ providerName task.provider ++ " is not configured")
  | some config =>
    match env.call task config with
    | .ok res elapsed =>
        .ok { taskId := task.id
              provider := task.provider
              model := resolveModel task.model config.defaultModel
              response := res.content
              usage := res.usage
              timestamp := startTime + elapsed
              duration := elapsed }
    | .fail msg elapsed =>
        .ok { taskId := task.id
              provider := task.provider
              model := resolveModel task.model config.defaultModel
              response := "Error: " ++ msg
              usage := none
              timestamp := startTime + elapsed
              duration := elapsed }

/-- The in-memory session map (`Map<string, ParallelThoughtResult>`),
as an insertion-ordered association list. -/
abbrev SessionStore := List (String × ParallelThoughtResult)

/-- `Map.get`: the value stored under a key, if any. -/
def storeGet : SessionStore → String → Option ParallelThoughtResult
  | [], _ => none
  | (k, v) :: rest, key => if k = key then some v else storeGet rest key

/-- `Map.set`: replaces the value under an existing key in place, or
appends a new entry. -/
def storeSet : SessionStore → String → ParallelThoughtResult → SessionStore
  | [], key, val => [(key, val)]
  | (k, v) :: rest, key, val =>
      if k = key then (key, val) :: rest else (k, v) :: storeSet rest key val

/-- Options bag of `executeParallelThoughts`. -/
structure ExecOptions where
  variants : Option (List String)
  temperature : Option Rat
  maxTokens : Option Nat
  customModels : AIProvider → Option String

/-- The task-generation loops of `executeParallelThoughts`: one task per
(provider, variant index) pair, iterating providers in the outer loop.
`variants` defaults to a single empty variant only when absent (a present
empty array is truthy in JavaScript and is kept as-is). -/
def mkTasks (basePrompt : String) (providers : List AIProvider)
    (opts : ExecOptions) : List AIThoughtTask :=
  let variants := opts.variants.getD [""]
  providers.flatMap fun provider =>
    (List.range variants.length).map fun i =>
      let variant := variants.getD i ""
      { id := providerName provider ++ "-" ++ Nat.repr i
        prompt := if variant = "" then basePrompt else basePrompt ++ "\n\n" ++ variant
        provider := provider
        model := opts.customModels provider
        temperature := opts.temperature
        maxTokens := opts.maxTokens
        metadata := none }

/-- `Promise.all` over the per-task executions: succeeds with the
position-matched response list when every task resolves, and rejects
when any member rejects. -/
def allTasks (env : Env) (startTime : Nat) :
    List AIThoughtTask → Except String (List AIThoughtResponse)
  | [] => .ok []
  | t :: ts =>
    match executeTask env startTime t, allTasks env startTime ts with
    | .ok r, .ok rs => .ok (r :: rs)
    | .error e, _ => .error e
    | .ok _, .error e => .error e

/-- `ParallelThoughtManager.executeParallelThoughts`: generates the task
batch, runs it through `Promise.all`, builds the session aggregate and
stores it under the session identifier. The batch's wall-clock span
`batchElapsed` comes from the environment of the run. On rejection the
store is left unchanged and the failure propagates. -/
def executeParallelThoughts (env : Env) (startTime batchElapsed : Nat)
    (sessionId basePrompt : String) (providers : List AIProvider)
    (opts : ExecOptions) (sessions : SessionStore) :
    SessionStore × Except String ParallelThoughtResult :=
  let tasks := mkTasks basePrompt providers opts
  match allTasks env startTime tasks with
  | .error e => (sessions, .error e)
  | .ok responses =>
      let result : ParallelThoughtResult :=
        { sessionId := sessionId
          tasks := tasks
          responses := responses
          summary := none
          consensus := none
          totalDuration := batchElapsed
          timestamp := startTime + batchElapsed }
      (storeSet sessions sessionId result, .ok result)

/-- The `responsesText` block built by `summarizeResponses`. -/
def summaryResponsesText (responses : List AIThoughtResponse) : String :=
  String.intercalate "\n\n---\n\n"
    (responses.map fun r =>
      "**" ++ providerName r.provider ++ " (" ++ r.model ++ ")**:\n" ++ r.response)

/-- The synthesis prompt built by `summarizeResponses`. -/
def summaryPromptFor (responses : List AIThoughtResponse) : String :=
  "以下は同じ質問に対する複数のAIの回答です。これらの回答を分析し、共通点、相違点、そして総合的な洞察をまとめてください。\n\n"
    ++ summaryResponsesText responses
    ++ "\n\n以下の形式で回答してください：\n1. 共通する見解\n2. 異なる観点\n3. 総合的な結論"

/-- The single synthesis task built by `summarizeResponses`. -/
def summaryTaskFor (sessionId : String) (summaryProvider : AIProvider)
    (responses : List AIThoughtResponse) : AIThoughtTask :=
  { id := "summary-" ++ sessionId
    prompt := summaryPromptFor responses
    provider := summaryProvider
    model := none
    temperature := some (3 / 10 : Rat)
    maxTokens := none
    metadata := none }

/-- `ParallelThoughtManager.summarizeResponses`: throws when the session
is unknown, otherwise runs the synthesis task through the executor and
overwrites the session's `summary` field with the resulting text. -/
def summarizeResponses (env : Env) (startTime : Nat) (sessionId : String)
    (summaryProvider : AIProvider) (sessions : SessionStore) :
    SessionStore × Except String String :=
  match storeGet sessions sessionId with
  | none => (sessions, .error ("Session " ++ sessionId ++ " not found"))
  | some session =>
    match executeTask env startTime (summaryTaskFor sessionId summaryProvider session.responses) with
    | .error e => (sessions, .error e)
    | .ok resp =>
        (storeSet sessions sessionId { session with summary := some resp.response },
         .ok resp.response)

/-- The `responsesText` block built by `findConsensus`. -/
def consensusResponsesText (responses : List AIThoughtResponse) : String :=
  String.intercalate "\n\n"
    (responses.map fun r => "**" ++ providerName r.provider ++ "**: " ++ r.response)

/-- The synthesis prompt built by `findConsensus`. -/
def consensusPromptFor (responses : List AIThoughtResponse) : String :=
  "以下は同じ質問に対する複数のAIの回答です。これらの回答から最も合理的で信頼性の高い結論を導き出してください。\n\n"
    ++ consensusResponsesText responses
    ++ "\n\n合意できる結論を簡潔に述べてください："

/-- The single synthesis task built by `findConsensus`. -/
def consensusTaskFor (sessionId : String) (consensusProvider : AIProvider)
    (responses : List AIThoughtResponse) : AIThoughtTask :=
  { id := "consensus-" ++ sessionId
    prompt := consensusPromptFor responses
    provider := consensusProvider
    model := none
    temperature := some (1 / 10 : Rat)
    maxTokens := none
    metadata := none }

/-- `ParallelThoughtManager.findConsensus`: throws when the session is
unknown, otherwise runs the synthesis task through the executor and
overwrites the session's `consensus` field with the resulting text. -/
def findConsensus (env : Env) (startTime : Nat) (sessionId : String)
    (consensusProvider : AIProvider) (sessions : SessionStore) :
    SessionStore × Except String String :=
  match storeGet sessions sessionId with
  | none => (sessions, .error ("Session " ++ sessionId ++ " not found"))
  | some session =>
    match executeTask env startTime (consensusTaskFor sessionId consensusProvider session.responses) with
    | .error e => (sessions, .error e)
    | .ok resp =>
        (storeSet sessions sessionId { session with consensus := some resp.response },
         .ok resp.response)

/-- `getAvailableProviders`: the keys of the configuration map, in the
fixed insertion order of `initializeProviders`. -/
def availableProviders (env : Env) : List AIProvider :=
  [AIProvider.openai, AIProvider.anthropic, AIProvider.gemini,
   AIProvider.deepseek, AIProvider.ollama].filter fun p => (env.configs p).isSome

/-- Arguments of the `parallel-ai-think` tool after schema validation. -/
structure ThinkArgs where
  prompt : String
  providers : Option (List AIProvider)
  sessionId : Option String
  variants : Option (List String)
  temperature : Option Rat
  maxTokens : Option Nat
  customModels : AIProvider → Option String

/-- The `parallel-ai-think` tool handler: rejects when no provider is
configured, filters the caller's chosen providers down to the configured
set (falling back to all configured providers when the choice is absent
or empty), rejects when the filtered set is empty, then delegates to
`executeParallelThoughts`, wrapping any failure of the batch.
`genSessionId` stands for the generated identifier used when the caller
supplies none. -/
def parallelAiThink (env : Env) (startTime batchElapsed : Nat)
    (genSessionId : String) (args : ThinkArgs) (sessions : SessionStore) :
    SessionStore × Except String ParallelThoughtResult :=
  let avail := availableProviders env
  if avail.length = 0 then
    (sessions, .error "利用可能なAIプロバイダーがありません。環境変数でAPIキーを設定してください。")
  else
    let targetProviders :=
      match args.providers with
      | some ps => if 0 < ps.length then ps.filter (fun p => decide (p ∈ avail)) else avail
      | none => avail
    if targetProviders.length = 0 then
      (sessions, .error "指定されたプロバイダーは利用できません。")
    else
      let finalSessionId := jsStrOr args.sessionId genSessionId
      match executeParallelThoughts env startTime batchElapsed finalSessionId
        args.prompt targetProviders
        { variants := args.variants
          temperature := args.temperature
          maxTokens := args.maxTokens
          customModels := args.customModels } sessions with
      | (store1, .ok r) => (store1, .ok r)
      | (_, .error e) => (sessions, .error ("並行思考の実行に失敗しました: " ++ e))

/-- Decimal decoding of a digit string, the left inverse of `Nat.repr`
used to establish that task identifiers are injective in the variant
index. -/
def decodeDigits (l : List Char) : Nat :=
  l.foldl (fun a c => 10 * a + (c.toNat - 48)) 0

/-- A sample provider configuration for concrete runs. -/
def testConfig : AIProviderConfig :=
  { apiKey := "k", baseURL := some "u", defaultModel := some "gpt-4" }

/-- A concrete environment: only `openai` is configured, every provider
call succeeds with content `"hi"` after 5ms. -/
def testEnv : Env :=
  { configs := fun p => match p with
      | .openai => some testConfig
      | _ => none
    call := fun _ _ => .ok { content := "hi", usage := none } 5 }

/-- A concrete environment: only `openai` is configured, every provider
call fails with message `"boom"` after 3ms. -/
def testEnvFail : Env :=
  { configs := testEnv.configs
    call := fun _ _ => .fail "boom" 3 }

/-- A concrete environment with no provider configured at all. -/
def envNone : Env :=
  { configs := fun _ => none
    call := fun _ _ => .fail "down" 0 }

/-- Options with a single non-empty variant. -/
def optsC1 : ExecOptions :=
  { variants := some ["v"], temperature := none, maxTokens := none,
    customModels := fun _ => none }

/-- Options with the variants list omitted. -/
def optsNone : ExecOptions :=
  { variants := none, temperature := none, maxTokens := none,
    customModels := fun _ => none }

/-- Options with a present but empty variants list. -/
def optsEmptyVariants : ExecOptions :=
  { variants := some [], temperature := none, maxTokens := none,
    customModels := fun _ => none }

/-- The task generated by `executeParallelThoughts testEnv 0 7 "s" "hello"
[openai] optsC1`. -/
def taskC1 : AIThoughtTask :=
  { id := "openai-0", prompt := "hello\n\nv", provider := .openai,
    model := none, temperature := none, maxTokens := none, metadata := none }

/-- The response produced for `taskC1` under `testEnv`. -/
def respC1 : AIThoughtResponse :=
  { taskId := "openai-0", provider := .openai, model := "gpt-4",
    response := "hi", usage := none, timestamp := 5, duration := 5 }

/-- The session stored by the run producing `taskC1`/`respC1`. -/
def resultC1 : ParallelThoughtResult :=
  { sessionId := "s", tasks := [taskC1], responses := [respC1],
    summary := none, consensus := none, totalDuration := 7, timestamp := 7 }

/-- The task generated by a second run on session `"s"` with base prompt
`"bye"` and variants omitted. -/
def taskC7 : AIThoughtTask :=
  { id := "openai-0", prompt := "bye", provider := .openai,
    model := none, temperature := none, maxTokens := none, metadata := none }

/-- The response produced for `taskC7` under `testEnv` at start time 3. -/
def respC7 : AIThoughtResponse :=
  { taskId := "openai-0", provider := .openai, model := "gpt-4",
    response := "hi", usage := none, timestamp := 8, duration := 5 }

/-- The session stored by the second run. -/
def resultC7 : ParallelThoughtResult :=
  { sessionId := "s", tasks := [taskC7], responses := [respC7],
    summary := none, consensus := none, totalDuration := 9, timestamp := 12 }

/-- Tool arguments choosing one configured and one unconfigured provider. -/
def argsC3 : ThinkArgs :=
  { prompt := "hello", providers := some [.openai, .anthropic],
    sessionId := some "s", variants := some ["v"], temperature := none,
    maxTokens := none, customModels := fun _ => none }

/-- The zero-task session stored when the variants list is empty. -/
def emptySessionC4 : ParallelThoughtResult :=
  { sessionId := "s", tasks := [], responses := [], summary := none,
    consensus := none, totalDuration := 7, timestamp := 7 }

/-- The session after a concrete summarize run. -/
def sumSessionC6 : ParallelThoughtResult := { resultC1 with summary := some "hi" }

/-- The session after concrete summarize and consensus runs. -/
def bothSessionC6 : ParallelThoughtResult :=
  { resultC1 with summary := some "hi", consensus := some "hi" }

/-- Options with one empty and one non-empty variant. -/
def optsC8 : ExecOptions :=
  { variants := some ["", "x"], temperature := none, maxTokens := none,
    customModels := fun _ => none }

/-- The second task generated from `optsC8` for provider openai. -/
def taskC8 : AIThoughtTask :=
  { id := "openai-1", prompt := "hello\n\nx", provider := .openai,
    model := none, temperature := none, maxTokens := none, metadata := none }


/-- With enough fuel, the accumulator of `Nat.toDigitsCore` is a plain
suffix of its output. -/
theorem toDigitsCore_append : ∀ (f n : Nat) (ds : List Char), n < f →
    Nat.toDigitsCore 10 f n ds = Nat.toDigitsCore 10 f n [] ++ ds := by
  intro f
  induction f with
  | zero => intro n ds h; omega
  | succ f ih =>
    intro n ds _
    simp only [Nat.toDigitsCore]
    by_cases h10 : n / 10 = 0
    · simp [h10]
    · simp only [h10, if_false]
      have hn : 0 < n := by omega
      have hlt : n / 10 < n := Nat.div_lt_self hn (by omega)
      have hf : n / 10 < f := by omega
      rw [ih (n / 10) (Nat.digitChar (n % 10) :: ds) hf,
          ih (n / 10) [Nat.digitChar (n % 10)] hf]
      simp

/-- `Nat.toDigitsCore` does not depend on the fuel once it exceeds the
number being rendered. -/
theorem toDigitsCore_fuel_irrel : ∀ (n f1 f2 : Nat), n < f1 → n < f2 →
    Nat.toDigitsCore 10 f1 n [] = Nat.toDigitsCore 10 f2 n [] := by
  intro n
  induction n using Nat.strong_induction_on with
  | _ n ih =>
    intro f1 f2 h1 h2
    match f1, f2 with
    | f1 + 1, f2 + 1 =>
      simp only [Nat.toDigitsCore]
      by_cases h10 : n / 10 = 0
      · simp [h10]
      · simp only [h10, if_false]
        have hn : 0 < n := by omega
        have hlt : n / 10 < n := Nat.div_lt_self hn (by omega)
        rw [toDigitsCore_append f1 (n / 10) _ (by omega),
            toDigitsCore_append f2 (n / 10) _ (by omega),
            ih (n / 10) hlt f1 f2 (by omega) (by omega)]

/-- One-digit unfolding of `Nat.toDigits` base 10. -/
theorem toDigits_lt (n : Nat) (h : n < 10) : Nat.toDigits 10 n = [Nat.digitChar n] := by
  simp only [Nat.toDigits, Nat.toDigitsCore]
  have h10 : n / 10 = 0 := by omega
  simp [h10, Nat.mod_eq_of_lt h]

/-- Multi-digit unfolding of `Nat.toDigits` base 10. -/
theorem toDigits_ge (n : Nat) (h : 10 ≤ n) :
    Nat.toDigits 10 n = Nat.toDigits 10 (n / 10) ++ [Nat.digitChar (n % 10)] := by
  simp only [Nat.toDigits]
  have h10 : ¬ (n / 10 = 0) := by omega
  conv_lhs => simp only [Nat.toDigitsCore]
  simp only [h10, if_false]
  have hlt : n / 10 < n := Nat.div_lt_self (by omega) (by omega)
  rw [toDigitsCore_append n (n / 10) _ (by omega),
      toDigitsCore_fuel_irrel (n / 10) n (n / 10 + 1) (by omega) (by omega)]

/-- Decimal digit characters decode back to their value. -/
theorem digitChar_toNat : ∀ d, d < 10 → (Nat.digitChar d).toNat - 48 = d := by decide

/-- `decodeDigits` is a left inverse of `Nat.toDigits` base 10. -/
theorem decode_toDigits : ∀ n, decodeDigits (Nat.toDigits 10 n) = n := by
  intro n
  induction n using Nat.strong_induction_on with
  | _ n ih =>
    by_cases h : n < 10
    · rw [toDigits_lt n h]
      simp [decodeDigits, digitChar_toNat n h]
    · rw [toDigits_ge n (by omega)]
      have hlt : n / 10 < n := Nat.div_lt_self (by omega) (by omega)
      simp only [decodeDigits, List.foldl_append] at *
      rw [ih (n / 10) hlt]
      simp [digitChar_toNat (n % 10) (by omega)]
      omega

/-- Decimal rendering of naturals is injective. -/
theorem natRepr_inj (m n : Nat) (h : Nat.repr m = Nat.repr n) : m = n := by
  have hd : Nat.toDigits 10 m = Nat.toDigits 10 n := congrArg String.data h
  calc m = decodeDigits (Nat.toDigits 10 m) := (decode_toDigits m).symm
    _ = decodeDigits (Nat.toDigits 10 n) := by rw [hd]
    _ = n := decode_toDigits n

/-- Splitting at the first dash is unambiguous when neither left part
contains a dash. -/
theorem append_dash_inj : ∀ (l1 : List Char) (l2 r1 r2 : List Char),
    '-' ∉ l1 → '-' ∉ l2 → l1 ++ '-' :: r1 = l2 ++ '-' :: r2 → l1 = l2 ∧ r1 = r2 := by
  intro l1
  induction l1 with
  | nil =>
    intro l2 r1 r2 _ h2 h
    cases l2 with
    | nil => simpa using h
    | cons c l2 =>
      simp only [List.nil_append, List.cons_append, List.cons.injEq] at h
      exact absurd (h.1 ▸ List.mem_cons_self c l2) h2
  | cons c l1 ih =>
    intro l2 r1 r2 h1 h2 h
    cases l2 with
    | nil =>
      simp only [List.cons_append, List.nil_append, List.cons.injEq] at h
      exact absurd (h.1 ▸ List.mem_cons_self c l1) h1
    | cons d l2 =>
      simp only [List.cons_append, List.cons.injEq] at h
      obtain ⟨rfl, h⟩ := h
      have := ih l2 r1 r2 (fun hm => h1 (List.mem_cons_of_mem _ hm))
        (fun hm => h2 (List.mem_cons_of_mem _ hm)) h
      exact ⟨by rw [this.1], this.2⟩

/-- No provider name contains a dash. -/
theorem providerName_dashFree (p : AIProvider) : '-' ∉ (providerName p).data := by
  cases p <;> decide

/-- Provider names are pairwise distinct. -/
theorem providerName_inj (p q : AIProvider) (h : providerName p = providerName q) : p = q := by
  cases p <;> cases q <;> first | rfl | exact absurd h (by decide)

/-- Task identifiers determine the provider and the variant index. -/
theorem taskId_inj (p q : AIProvider) (i j : Nat)
    (h : providerName p ++ "-" ++ Nat.repr i = providerName q ++ "-" ++ Nat.repr j) :
    p = q ∧ i = j := by
  have hd : (providerName p).data ++ '-' :: (Nat.repr i).data
      = (providerName q).data ++ '-' :: (Nat.repr j).data := by
    have := congrArg String.data h
    simpa [String.data_append, List.append_assoc] using this
  obtain ⟨h1, h2⟩ := append_dash_inj _ _ _ _ (providerName_dashFree p) (providerName_dashFree q) hd
  exact ⟨providerName_inj p q (String.ext h1), natRepr_inj i j (String.ext h2)⟩

/-- Reading back the key just written into the store. -/
theorem storeGet_storeSet_same : ∀ (s : SessionStore) (k : String) (v : ParallelThoughtResult),
    storeGet (storeSet s k v) k = some v := by
  intro s k v
  induction s with
  | nil => simp [storeSet, storeGet]
  | cons kv rest ih =>
    obtain ⟨k2, v2⟩ := kv
    by_cases h : k2 = k
    · subst h; simp [storeSet, storeGet]
    · simp [storeSet, storeGet, h, ih]

/-- Writing one key leaves every other key unchanged. -/
theorem storeGet_storeSet_other : ∀ (s : SessionStore) (k : String) (v : ParallelThoughtResult)
    (k2 : String), k ≠ k2 → storeGet (storeSet s k v) k2 = storeGet s k2 := by
  intro s k v k2 hne
  induction s with
  | nil => simp [storeSet, storeGet, hne]
  | cons kv rest ih =>
    obtain ⟨k3, v3⟩ := kv
    by_cases h : k3 = k
    · subst h; simp [storeSet, storeGet, hne]
    · simp [storeSet, storeGet, h, ih]

/-- A successful execution carries the originating task's identifier. -/
theorem executeTask_ok_taskId (env : Env) (st : Nat) (task : AIThoughtTask)
    (r : AIThoughtResponse) (h : executeTask env st task = .ok r) : r.taskId = task.id := by
  cases hc : env.configs task.provider with
  | none => simp [executeTask, hc] at h
  | some config =>
    cases hcall : env.call task config with
    | ok res elapsed =>
      simp only [executeTask, hc, hcall] at h
      injection h with h
      rw [← h]
    | fail msg elapsed =>
      simp only [executeTask, hc, hcall] at h
      injection h with h
      rw [← h]

/-- When the batch join succeeds, the responses are position-matched to
the tasks: same length, and the identifier sequences agree. -/
theorem allTasks_ok (env : Env) (st : Nat) : ∀ (l : List AIThoughtTask)
    (rs : List AIThoughtResponse), allTasks env st l = .ok rs →
    rs.length = l.length ∧ rs.map (fun r => r.taskId) = l.map (fun t => t.id) := by
  intro l
  induction l with
  | nil =>
    intro rs h
    simp only [allTasks] at h
    injection h with h
    subst h
    simp
  | cons t ts ih =>
    intro rs h
    cases he : executeTask env st t with
    | error e => simp [allTasks, he] at h
    | ok r =>
      cases ha : allTasks env st ts with
      | error e => simp [allTasks, he, ha] at h
      | ok rs2 =>
        simp only [allTasks, he, ha] at h
        injection h with h
        subst h
        obtain ⟨h1, h2⟩ := ih rs2 ha
        simp [h1, h2, executeTask_ok_taskId env st t r he]

/-- The batch size is the Cartesian product of providers and variants. -/
theorem mkTasks_length (bp : String) (providers : List AIProvider)
    (opts : ExecOptions) (vs : List String) (hv : opts.variants = some vs) :
    (mkTasks bp providers opts).length = providers.length * vs.length := by
  have haux : ∀ (n : Nat) (f : AIProvider → Nat → AIThoughtTask) (l : List AIProvider),
      (l.flatMap fun p => (List.range n).map (f p)).length = l.length * n := by
    intro n f l
    induction l with
    | nil => simp
    | cons p ps ih => simp [ih, Nat.succ_mul, Nat.add_comm]
  unfold mkTasks
  rw [hv]
  exact haux vs.length _ providers

/-- C1: for every non-empty providers list and non-empty variants list, a
completed `executeParallelThoughts` run generates exactly
`|providers| * |variants|` tasks, the same number of responses, and the
response at each position carries the identifier of the task at the same
position. -/
theorem executeParallelThoughts_product_matched
    (env : Env) (st be : Nat) (sid bp : String) (providers : List AIProvider)
    (opts : ExecOptions) (sessions store1 : SessionStore) (vs : List String)
    (result : ParallelThoughtResult)
    (hps : providers ≠ []) (hvs : opts.variants = some vs) (hv : vs ≠ [])
    (h : executeParallelThoughts env st be sid bp providers opts sessions
      = (store1, Except.ok result)) :
    result.tasks.length = providers.length * vs.length ∧
    result.responses.length = result.tasks.length ∧
    result.responses.map (fun r => r.taskId) = result.tasks.map (fun t => t.id) := by
  cases ha : allTasks env st (mkTasks bp providers opts) with
  | error e => simp [executeParallelThoughts, ha] at h
  | ok rs =>
    simp only [executeParallelThoughts, ha] at h
    rw [Prod.mk.injEq] at h
    obtain ⟨hst, hres⟩ := h
    injection hres with hres
    obtain ⟨hlen, hmap⟩ := allTasks_ok env st _ rs ha
    subst hres
    refine ⟨?_, ?_, ?_⟩
    · simpa using mkTasks_length bp providers opts vs hvs
    · simpa using hlen
    · simpa using hmap

/-- C1 witness: a concrete completed run with one provider and one variant. -/
theorem executeParallelThoughts_product_matched_witness :
    resultC1.tasks.length = 1 * 1 ∧
    resultC1.responses.length = resultC1.tasks.length ∧
    resultC1.responses.map (fun r => r.taskId) = resultC1.tasks.map (fun t => t.id) :=
  executeParallelThoughts_product_matched testEnv 0 7 "s" "hello" [.openai] optsC1 []
    [("s", resultC1)] ["v"] resultC1 (by decide) rfl (by decide) rfl

/-- C2: for a task whose provider is configured, `executeTask` always
returns a response rather than throwing, and on any provider failure the
response carries the descriptive error text, no usage counters, and the
elapsed duration up to the failure point. -/
theorem executeTask_never_throws_degrades
    (env : Env) (st : Nat) (task : AIThoughtTask) (config : AIProviderConfig)
    (hc : env.configs task.provider = some config) :
    (∃ r, executeTask env st task = Except.ok r) ∧
    (∀ msg elapsed, env.call task config = CallOutcome.fail msg elapsed →
      executeTask env st task = Except.ok
        { taskId := task.id, provider := task.provider,
          model := resolveModel task.model config.defaultModel,
          response := "Error: " ++ msg, usage := none,
          timestamp := st + elapsed, duration := elapsed }) := by
  constructor
  · cases hcall : env.call task config with
    | ok res elapsed =>
      exact ⟨{ taskId := task.id, provider := task.provider,
               model := resolveModel task.model config.defaultModel,
               response := res.content, usage := res.usage,
               timestamp := st + elapsed, duration := elapsed },
             by simp [executeTask, hc, hcall]⟩
    | fail msg elapsed =>
      exact ⟨{ taskId := task.id, provider := task.provider,
               model := resolveModel task.model config.defaultModel,
               response := "Error: " ++ msg, usage := none,
               timestamp := st + elapsed, duration := elapsed },
             by simp [executeTask, hc, hcall]⟩
  · intro msg elapsed hcall
    simp [executeTask, hc, hcall]

/-- C2 witness: a concrete failing call degrades to an error response. -/
theorem executeTask_never_throws_degrades_witness :
    executeTask testEnvFail 0 taskC1 = Except.ok
      { taskId := "openai-0", provider := .openai, model := "gpt-4",
        response := "Error: boom", usage := none, timestamp := 3, duration := 3 } :=
  (executeTask_never_throws_degrades testEnvFail 0 taskC1 testConfig rfl).2 "boom" 3 rfl

/-- C5: summarize and consensus on an unknown session identifier fail with
the not-found error and leave the session store completely unchanged. -/
theorem synthesis_unknown_session_notFound
    (env : Env) (st1 st2 : Nat) (sid : String) (p1 p2 : AIProvider)
    (sessions : SessionStore) (h : storeGet sessions sid = none) :
    summarizeResponses env st1 sid p1 sessions
      = (sessions, Except.error ("Session " ++ sid ++ " not found")) ∧
    findConsensus env st2 sid p2 sessions
      = (sessions, Except.error ("Session " ++ sid ++ " not found")) := by
  constructor <;> simp [summarizeResponses, findConsensus, h]

/-- C5 witness: concrete unknown-session calls. -/
theorem synthesis_unknown_session_notFound_witness :
    summarizeResponses testEnv 0 "nope" AIProvider.anthropic []
      = ([], Except.error "Session nope not found") ∧
    findConsensus testEnv 1 "nope" AIProvider.anthropic []
      = ([], Except.error "Session nope not found") :=
  synthesis_unknown_session_notFound testEnv 0 1 "nope" .anthropic .anthropic [] rfl

/-- C6: on a stored session, summarize mutates only the summary field and
consensus only the consensus field; running summarize then consensus
leaves both fields set, the rest of the session and every other stored
session untouched. -/
theorem summarize_consensus_frame
    (env : Env) (st1 st2 : Nat) (sid : String) (p1 p2 : AIProvider)
    (sessions store1 store2 : SessionStore) (session : ParallelThoughtResult)
    (t1 t2 : String)
    (hs : storeGet sessions sid = some session)
    (h1 : summarizeResponses env st1 sid p1 sessions = (store1, Except.ok t1))
    (h2 : findConsensus env st2 sid p2 store1 = (store2, Except.ok t2)) :
    storeGet store1 sid = some { session with summary := some t1 } ∧
    storeGet store2 sid = some { session with summary := some t1, consensus := some t2 } ∧
    (∀ k, k ≠ sid → storeGet store1 k = storeGet sessions k) ∧
    (∀ k, k ≠ sid → storeGet store2 k = storeGet sessions k) := by
  cases he1 : executeTask env st1 (summaryTaskFor sid p1 session.responses) with
  | error e => simp [summarizeResponses, hs, he1] at h1
  | ok resp1 =>
    simp only [summarizeResponses, hs, he1] at h1
    rw [Prod.mk.injEq] at h1
    obtain ⟨hstore1, ht1⟩ := h1
    injection ht1 with ht1
    subst ht1
    subst hstore1
    have hget1 : storeGet (storeSet sessions sid { session with summary := some resp1.response }) sid
        = some { session with summary := some resp1.response } :=
      storeGet_storeSet_same sessions sid _
    cases he2 : executeTask env st2
        (consensusTaskFor sid p2 session.responses) with
    | error e => simp [findConsensus, hget1, he2] at h2
    | ok resp2 =>
      simp only [findConsensus, hget1, he2] at h2
      rw [Prod.mk.injEq] at h2
      obtain ⟨hstore2, ht2⟩ := h2
      injection ht2 with ht2
      subst ht2
      subst hstore2
      refine ⟨hget1, ?_, ?_, ?_⟩
      · exact storeGet_storeSet_same _ sid _
      · intro k hk
        rw [storeGet_storeSet_other _ _ _ _ (Ne.symm hk)]
      · intro k hk
        rw [storeGet_storeSet_other _ _ _ _ (Ne.symm hk),
            storeGet_storeSet_other _ _ _ _ (Ne.symm hk)]

/-- C6 witness: a concrete summarize-then-consensus run. -/
theorem summarize_consensus_frame_witness :
    storeGet [("s", sumSessionC6)] "s" = some { resultC1 with summary := some "hi" } ∧
    storeGet [("s", bothSessionC6)] "s"
      = some { resultC1 with summary := some "hi", consensus := some "hi" } := by
  have T := summarize_consensus_frame testEnv 0 4 "s" .openai .openai
    [("s", resultC1)] [("s", sumSessionC6)] [("s", bothSessionC6)] resultC1 "hi" "hi"
    rfl rfl rfl
  exact ⟨T.1, T.2.1⟩

/-- C7: a second completed run with the same session identifier replaces
the stored session entirely with the second run's aggregate (summary and
consensus absent again), leaving other keys as they were. -/
theorem executeParallelThoughts_replaces
    (env : Env) (st1 be1 st2 be2 : Nat) (sid bp1 bp2 : String)
    (prov1 prov2 : List AIProvider) (opts1 opts2 : ExecOptions)
    (sessions store1 store2 : SessionStore) (r1 r2 : ParallelThoughtResult)
    (h1 : executeParallelThoughts env st1 be1 sid bp1 prov1 opts1 sessions
      = (store1, Except.ok r1))
    (h2 : executeParallelThoughts env st2 be2 sid bp2 prov2 opts2 store1
      = (store2, Except.ok r2)) :
    storeGet store2 sid = some r2 ∧
    r2.tasks = mkTasks bp2 prov2 opts2 ∧
    r2.summary = none ∧ r2.consensus = none ∧
    (∀ k, k ≠ sid → storeGet store2 k = storeGet sessions k) := by
  cases ha1 : allTasks env st1 (mkTasks bp1 prov1 opts1) with
  | error e => simp [executeParallelThoughts, ha1] at h1
  | ok rs1 =>
    simp only [executeParallelThoughts, ha1] at h1
    rw [Prod.mk.injEq] at h1
    obtain ⟨hstore1, hr1⟩ := h1
    cases ha2 : allTasks env st2 (mkTasks bp2 prov2 opts2) with
    | error e => simp [executeParallelThoughts, ha2] at h2
    | ok rs2 =>
      simp only [executeParallelThoughts, ha2] at h2
      rw [Prod.mk.injEq] at h2
      obtain ⟨hstore2, hr2⟩ := h2
      injection hr2 with hr2
      subst hr2
      subst hstore2
      subst hstore1
      refine ⟨storeGet_storeSet_same _ _ _, rfl, rfl, rfl, ?_⟩
      intro k hk
      rw [storeGet_storeSet_other _ _ _ _ (Ne.symm hk),
          storeGet_storeSet_other _ _ _ _ (Ne.symm hk)]

/-- C7 witness: two concrete runs on the same identifier. -/
theorem executeParallelThoughts_replaces_witness :
    storeGet [("s", resultC7)] "s" = some resultC7 ∧
    resultC7.tasks = mkTasks "bye" [AIProvider.openai] optsNone ∧
    resultC7.summary = none ∧ resultC7.consensus = none := by
  have T := executeParallelThoughts_replaces testEnv 0 7 3 9 "s" "hello" "bye"
    [.openai] [.openai] optsC1 optsNone [] [("s", resultC1)] [("s", resultC7)]
    resultC1 resultC7 rfl rfl
  exact ⟨T.1, T.2.1, T.2.2.1, T.2.2.2.1⟩

/-- C3 counterexample: with only openai configured, choosing
[openai, anthropic] does not fail: the unconfigured provider is silently
filtered out, the batch runs, and a session is stored. -/
theorem parallelAiThink_filters_not_fails :
    testEnv.configs AIProvider.anthropic = none ∧
    parallelAiThink testEnv 0 7 "g" argsC3 [] = ([("s", resultC1)], Except.ok resultC1) :=
  ⟨rfl, rfl⟩

/-- C3 (amended): the tool call fails before any dispatch, leaving the
store unchanged, exactly when no provider is configured at all or none of
the caller's chosen providers is configured. -/
theorem parallelAiThink_config_error_no_store
    (env : Env) (st be : Nat) (gen : String) (args : ThinkArgs) (sessions : SessionStore)
    (h : availableProviders env = [] ∨
      ∃ ps, args.providers = some ps ∧ ps ≠ [] ∧ ∀ p ∈ ps, env.configs p = none) :
    ∃ e, parallelAiThink env st be gen args sessions = (sessions, Except.error e) := by
  rcases h with h | ⟨ps, hps, hne, hnone⟩
  · exact ⟨"利用可能なAIプロバイダーがありません。環境変数でAPIキーを設定してください。",
      by simp [parallelAiThink, h]⟩
  · by_cases ha : (availableProviders env).length = 0
    · exact ⟨"利用可能なAIプロバイダーがありません。環境変数でAPIキーを設定してください。",
        by simp [parallelAiThink, ha]⟩
    · have hfilter : ps.filter (fun p => decide (p ∈ availableProviders env)) = [] := by
        rw [List.filter_eq_nil_iff]
        intro p hp
        simp only [decide_eq_true_eq]
        intro hmem
        have hsome := (List.mem_filter.mp hmem).2
        rw [hnone p hp] at hsome
        simp at hsome
      have hpos : 0 < ps.length := List.length_pos.mpr hne
      exact ⟨"指定されたプロバイダーは利用できません。",
        by simp [parallelAiThink, ha, hps, hfilter, hpos]⟩

/-- C3 amended witness: with nothing configured the call fails and the
store stays empty. -/
theorem parallelAiThink_config_error_no_store_witness :
    ∃ e, parallelAiThink envNone 0 0 "g" argsC3 [] = ([], Except.error e) :=
  parallelAiThink_config_error_no_store envNone 0 0 "g" argsC3 [] (Or.inl rfl)

/-- C4 counterexample: a present-but-empty variants list is not rejected:
the run completes and stores a session with zero tasks and zero
responses. -/
theorem executeParallelThoughts_empty_variants_not_rejected :
    executeParallelThoughts testEnv 0 7 "s" "p" [AIProvider.openai] optsEmptyVariants []
      = ([("s", emptySessionC4)], Except.ok emptySessionC4) ∧
    emptySessionC4.tasks = [] ∧ emptySessionC4.responses = [] :=
  ⟨rfl, rfl, rfl⟩

/-- C4 (amended): an empty variants list produces an empty task list, and
`executeParallelThoughts` stores a session with zero tasks and zero
responses instead of rejecting the input. -/
theorem executeParallelThoughts_empty_variants_empty_session
    (env : Env) (st be : Nat) (sid bp : String) (providers : List AIProvider)
    (opts : ExecOptions) (sessions : SessionStore) (h : opts.variants = some []) :
    executeParallelThoughts env st be sid bp providers opts sessions =
      (storeSet sessions sid
        { sessionId := sid, tasks := [], responses := [], summary := none,
          consensus := none, totalDuration := be, timestamp := st + be },
       Except.ok
        { sessionId := sid, tasks := [], responses := [], summary := none,
          consensus := none, totalDuration := be, timestamp := st + be }) := by
  have hmk : mkTasks bp providers opts = [] := by
    unfold mkTasks
    rw [h]
    simp
  simp [executeParallelThoughts, hmk, allTasks]

/-- C4 amended witness: the concrete empty-variants run. -/
theorem executeParallelThoughts_empty_variants_empty_session_witness :
    executeParallelThoughts testEnv 0 7 "s" "p" [AIProvider.openai] optsEmptyVariants []
      = (storeSet [] "s" emptySessionC4, Except.ok emptySessionC4) :=
  executeParallelThoughts_empty_variants_empty_session testEnv 0 7 "s" "p"
    [.openai] optsEmptyVariants [] rfl

/-- C10: when the synthesis provider is configured but its call fails,
summarize and consensus still complete, overwriting the session's summary
(resp. consensus) field with the degraded text beginning with the error
marker and returning that text. -/
theorem synthesis_degraded_error_stored
    (env : Env) (st1 st2 : Nat) (sid : String) (p1 p2 : AIProvider)
    (sessions : SessionStore) (session : ParallelThoughtResult)
    (c1 c2 : AIProviderConfig) (m1 m2 : String) (e1 e2 : Nat)
    (hs : storeGet sessions sid = some session)
    (hc1 : env.configs p1 = some c1)
    (hf1 : env.call (summaryTaskFor sid p1 session.responses) c1 = CallOutcome.fail m1 e1)
    (hc2 : env.configs p2 = some c2)
    (hf2 : env.call (consensusTaskFor sid p2 session.responses) c2 = CallOutcome.fail m2 e2) :
    summarizeResponses env st1 sid p1 sessions
      = (storeSet sessions sid { session with summary := some ("Error: " ++ m1) },
         Except.ok ("Error: " ++ m1)) ∧
    findConsensus env st2 sid p2 sessions
      = (storeSet sessions sid { session with consensus := some ("Error: " ++ m2) },
         Except.ok ("Error: " ++ m2)) := by
  have hprov1 : (summaryTaskFor sid p1 session.responses).provider = p1 := rfl
  have hprov2 : (consensusTaskFor sid p2 session.responses).provider = p2 := rfl
  have he1 : executeTask env st1 (summaryTaskFor sid p1 session.responses)
      = Except.ok
          { taskId := "summary-" ++ sid, provider := p1,
            model := resolveModel none c1.defaultModel,
            response := "Error: " ++ m1, usage := none,
            timestamp := st1 + e1, duration := e1 } := by
    simp only [executeTask, hprov1, hc1, hf1]
    rfl
  have he2 : executeTask env st2 (consensusTaskFor sid p2 session.responses)
      = Except.ok
          { taskId := "consensus-" ++ sid, provider := p2,
            model := resolveModel none c2.defaultModel,
            response := "Error: " ++ m2, usage := none,
            timestamp := st2 + e2, duration := e2 } := by
    simp only [executeTask, hprov2, hc2, hf2]
    rfl
  constructor
  · simp [summarizeResponses, hs, he1]
  · simp [findConsensus, hs, he2]

/-- C10 witness: concrete degraded synthesis runs. -/
theorem synthesis_degraded_error_stored_witness :
    summarizeResponses testEnvFail 0 "s" AIProvider.openai [("s", resultC1)]
      = (storeSet [("s", resultC1)] "s" { resultC1 with summary := some "Error: boom" },
         Except.ok "Error: boom") ∧
    findConsensus testEnvFail 1 "s" AIProvider.openai [("s", resultC1)]
      = (storeSet [("s", resultC1)] "s" { resultC1 with consensus := some "Error: boom" },
         Except.ok "Error: boom") :=
  synthesis_degraded_error_stored testEnvFail 0 1 "s" .openai .openai [("s", resultC1)]
    resultC1 testConfig testConfig "boom" "boom" 3 3 rfl rfl rfl rfl rfl

/-- C8: every generated task's prompt is the base prompt alone when its
variant is empty, or the base prompt, a blank line and the variant when
non-empty; with variants omitted, exactly one task per provider is
produced with the base prompt unmodified. -/
theorem mkTasks_prompt_shape
    (bp : String) (providers : List AIProvider) (opts : ExecOptions) :
    (∀ vs, opts.variants = some vs →
      ∀ t ∈ mkTasks bp providers opts, ∃ i, i < vs.length ∧
        t.id = providerName t.provider ++ "-" ++ Nat.repr i ∧
        t.prompt = (if vs.getD i "" = "" then bp else bp ++ "\n\n" ++ vs.getD i "")) ∧
    (opts.variants = none →
      (mkTasks bp providers opts).map (fun t => t.provider) = providers ∧
      ∀ t ∈ mkTasks bp providers opts, t.prompt = bp) := by
  constructor
  · intro vs hvs t ht
    unfold mkTasks at ht
    rw [hvs] at ht
    simp only [Option.getD_some] at ht
    obtain ⟨p, hp, ht⟩ := List.mem_flatMap.mp ht
    obtain ⟨i, hi, hti⟩ := List.mem_map.mp ht
    rw [List.mem_range] at hi
    refine ⟨i, hi, ?_, ?_⟩
    · rw [← hti]
    · rw [← hti]
  · intro hvs
    have hmk : mkTasks bp providers opts = providers.map (fun p =>
        { id := providerName p ++ "-" ++ Nat.repr 0, prompt := bp, provider := p,
          model := opts.customModels p, temperature := opts.temperature,
          maxTokens := opts.maxTokens, metadata := none }) := by
      unfold mkTasks
      rw [hvs]
      induction providers with
      | nil => rfl
      | cons p ps ih => rw [List.flatMap_cons, ih]; rfl
    rw [hmk]
    constructor
    · clear hmk
      induction providers with
      | nil => rfl
      | cons p ps ih => rw [List.map_cons, List.map_cons, ih]
    · intro t ht
      obtain ⟨p, hp, hpt⟩ := List.mem_map.mp ht
      rw [← hpt]

/-- C8 witness: concrete tasks from a two-variant batch and from an
omitted-variants batch. -/
theorem mkTasks_prompt_shape_witness :
    (∃ i, i < (["", "x"] : List String).length ∧
      taskC8.id = providerName taskC8.provider ++ "-" ++ Nat.repr i ∧
      taskC8.prompt = (if (["", "x"] : List String).getD i "" = "" then "hello"
        else "hello" ++ "\n\n" ++ (["", "x"] : List String).getD i "")) ∧
    (mkTasks "hello" [AIProvider.openai] optsNone).map (fun t => t.provider)
      = [AIProvider.openai] :=
  ⟨(mkTasks_prompt_shape "hello" [.openai] optsC8).1 ["", "x"] rfl taskC8 (by decide),
   ((mkTasks_prompt_shape "hello" [.openai] optsNone).2 rfl).1⟩

/-- C9 counterexample: a providers list that repeats a provider yields
two tasks in the same batch with the same identifier. -/
theorem mkTasks_duplicate_provider_repeats_id :
    ((mkTasks "p" [AIProvider.openai, AIProvider.openai] optsNone).map (fun t => t.id))
      = ["openai-0", "openai-0"] ∧
    ¬ ((mkTasks "p" [AIProvider.openai, AIProvider.openai] optsNone).map
        (fun t => t.id)).Nodup :=
  ⟨rfl, by decide⟩

/-- C9 (amended): when the providers list itself has no duplicates, the
identifiers of a batch are pairwise distinct: tasks of the same provider
with different variant indices, or of different providers, never share an
identifier. -/
theorem mkTasks_nodup_ids (bp : String) (providers : List AIProvider)
    (opts : ExecOptions) (h : providers.Nodup) :
    ((mkTasks bp providers opts).map (fun t => t.id)).Nodup := by
  unfold mkTasks
  rw [List.map_flatMap]
  rw [List.nodup_flatMap]
  constructor
  · intro p hp
    rw [List.map_map]
    apply List.Nodup.map ?_ (List.nodup_range _)
    intro i j hij
    have hij2 : providerName p ++ "-" ++ Nat.repr i
        = providerName p ++ "-" ++ Nat.repr j := hij
    exact (taskId_inj p p i j hij2).2
  · refine List.Pairwise.imp ?_ h
    intro p q hpq
    intro x hxp hxq
    obtain ⟨t1, ht1, hxt1⟩ := List.mem_map.mp hxp
    obtain ⟨i, hi, hti1⟩ := List.mem_map.mp ht1
    obtain ⟨t2, ht2, hxt2⟩ := List.mem_map.mp hxq
    obtain ⟨j, hj, htj2⟩ := List.mem_map.mp ht2
    have h1 : providerName p ++ "-" ++ Nat.repr i = x := by rw [← hxt1, ← hti1]
    have h2 : providerName q ++ "-" ++ Nat.repr j = x := by rw [← hxt2, ← htj2]
    exact hpq (taskId_inj p q i j (h1.trans h2.symm)).1

/-- C9 amended witness: a duplicate-free providers list with two variants
has pairwise distinct identifiers. -/
theorem mkTasks_nodup_ids_witness :
    ((mkTasks "p" [AIProvider.openai, AIProvider.anthropic] optsC8).map
      (fun t => t.id)).Nodup :=
  mkTasks_nodup_ids "p" [.openai, .anthropic] optsC8 (by decide)
